import Mathlib

/-!
Shallow embedding of the Credential & Token Service of
`src/authAPI/main.py` (Authentication-OAuth-API).

Modelling conventions:
  * Timestamps and time deltas are `Int` seconds (POSIX time).
  * A JWT is modelled abstractly: it is either unparseable
    (`Token.malformed`) or a well-formed compact structure carrying a
    claim set and the symmetric key it was signed with
    (`Token.signed claims key`).  `jwt.decode` without signature
    verification exposes the claims of any well-formed token;
    `jwt.decode` with a key succeeds exactly when the key matches the
    signing key and the `exp` claim (when present) has not passed
    (PyJWT raises `ExpiredSignatureError` iff `exp <= now`).
  * The SQLAlchemy user table is a `List UserModel`; `first()` on a
    username filter is `List.find?`.
  * bcrypt hashing is an injected function parameter (`hash`,
    `verify`), since its output is opaque salted data.
  * `secrets.token_hex(n)` is modelled over its random byte input.
  * `HTTPException`s and store errors are an explicit error type.
-/

/-- The claim set carried by a token: `sub` (subject username) and
`exp` (expiry timestamp), each possibly absent. -/
structure Claims where
  sub : Option String
  exp : Option Int
  deriving Repr, DecidableEq

/-- A JWT as seen by this service: unparseable, or a well-formed signed
structure carrying its claims and the HS256 key it was signed with. -/
inductive Token where
  | malformed : Token
  | signed (claims : Claims) (key : String) : Token
  deriving Repr, DecidableEq

/-- `jwt.decode(token, options=\x7b"verify_signature": False\x7d)`:
parses the claims of any well-formed token without checking the
signature or expiry; fails (raises `DecodeError`) on an unparseable
token. -/
def jwt_decode_unverified : Token → Option Claims
  | .malformed => none
  | .signed c _ => some c

/-- `jwt.decode(token, key, algorithms=["HS256"])`: fails on an
unparseable token, a signing-key mismatch, or an `exp` claim in the
past (PyJWT: expired iff `exp <= now`); otherwise returns the claims. -/
def jwt_decode_verified (t : Token) (key : String) (now : Int) : Option Claims :=
  match t with
  | .malformed => none
  | .signed c k =>
    if k = key then
      match c.exp with
      | some e => if e ≤ now then none else some c
      | none => some c
    else none

/-- Observation: the `exp` claim of a token, when it parses. -/
def tokenExp : Token → Option Int
  | .malformed => none
  | .signed c _ => c.exp

/-- A row of the `users` table (`UserModel` in `main.py`). -/
structure UserModel where
  username : String
  email : String
  hashed_password : String
  activated : Bool
  secret_key : String
  client_id : String
  deriving Repr, DecidableEq

/-- `RegistrationResponseModel` of `main.py`. -/
structure RegistrationResponseModel where
  username : String
  email : String
  secret_key : String
  client_id : String
  deriving Repr, DecidableEq

/-- `GeneralResponseModel` of `main.py` (the `data` list is carried
separately where needed). -/
structure GeneralResponseModel where
  isSuccessful : Bool
  message : String
  deriving Repr, DecidableEq

/-- The externally observable failure modes of the service:
`unauthorized` is the HTTP 401 `credentials_exception` / bad login,
`inactive` the HTTP 400 "Inactive user", `conflict` the store's
duplicate-unique-field failure, `internalError` an unhandled crash. -/
inductive ApiError where
  | unauthorized
  | inactive
  | conflict
  | internalError
  deriving Repr, DecidableEq

/-- `ACCESS_TOKEN_EXPIRE_MINUTES = 30` in `main.py`. -/
def ACCESS_TOKEN_EXPIRE_MINUTES : Int := 30

/-- Hex digit characters as produced by `secrets.token_hex`
(lowercase). -/
def hexDigitChar : Nat → Char
  | 0 => '0' | 1 => '1' | 2 => '2' | 3 => '3'
  | 4 => '4' | 5 => '5' | 6 => '6' | 7 => '7'
  | 8 => '8' | 9 => '9' | 10 => 'a' | 11 => 'b'
  | 12 => 'c' | 13 => 'd' | 14 => 'e' | 15 => 'f'
  | _ => '0'

/-- `secrets.token_hex` over its random byte input: each byte is
rendered as two lowercase hexadecimal characters. -/
def token_hex (bytes : List Nat) : List Char :=
  bytes.flatMap (fun b => [hexDigitChar (b / 16), hexDigitChar (b % 16)])

/-- `generate_random_hex(bytes_length=32)` of `main.py`:
`secrets.token_hex(bytes_length)`.  The random bytes drawn are the
explicit argument. -/
def generate_random_hex (bytes : List Nat) : String :=
  String.mk (token_hex bytes)

/-- `generate_client_id()` of `main.py`:
`secrets.token_hex(7).upper()`.  The 7 random bytes drawn are the
explicit argument; `.upper()` uppercases each character. -/
def generate_client_id (bytes : List Nat) : String :=
  String.mk ((token_hex bytes).map Char.toUpper)

/-- `get_user(db, username)` of `main.py`:
`db.query(UserModel).filter(UserModel.username == username).first()`. -/
def get_user (db : List UserModel) (username : String) : Option UserModel :=
  db.find? (fun u => u.username == username)

/-- `authenticate_user(db, username, password)` of `main.py`: `False`
(here `none`) when the user is unknown or the password fails bcrypt
verification, else the user.  `verify` is the injected
`pwd_context.verify`. -/
def authenticate_user (verify : String → String → Bool)
    (db : List UserModel) (username password : String) : Option UserModel :=
  match get_user db username with
  | none => none
  | some user =>
    if verify password user.hashed_password then some user else none

/-- `create_access_token(data, secret_key, expires_delta)` of
`main.py`: copies `data`, sets `exp` to `now + expires_delta` when a
truthy delta is supplied and to `now + 15 minutes` otherwise, and
signs with `secret_key` (HS256).  The source's `if expires_delta:` is
a Python truthiness test: `None` and `timedelta(0)` are both falsy,
so an explicit zero delta also falls back to the 15-minute default. -/
def create_access_token (data : Claims) (secret_key : String)
    (now : Int) (expires_delta : Option Int) : Token :=
  let expire : Int :=
    match expires_delta with
    | some d => if d = 0 then now + 15 * 60 else now + d
    | none => now + 15 * 60
  Token.signed { data with exp := some expire } secret_key

/-- `get_current_user(token, db)` of `main.py`: two-phase token
verification.  Phase 1 parses the claims without verifying the
signature and extracts `sub` (401 if unparseable or absent); the user
is looked up by `sub` (401 if unknown); phase 2 re-parses verifying
the signature with that user's stored `secret_key` and checking expiry
(401 on failure); only then is the user returned. -/
def get_current_user (token : Token) (db : List UserModel) (now : Int) :
    Except ApiError UserModel :=
  match jwt_decode_unverified token with
  | none => .error .unauthorized
  | some unverified_payload =>
    match unverified_payload.sub with
    | none => .error .unauthorized
    | some username =>
      match get_user db username with
      | none => .error .unauthorized
      | some user =>
        match jwt_decode_verified token user.secret_key now with
        | none => .error .unauthorized
        | some _ => .ok user

/-- `get_current_active_user` of `main.py`: 400 "Inactive user" when
the verified user is not activated. -/
def get_current_active_user (token : Token) (db : List UserModel) (now : Int) :
    Except ApiError UserModel :=
  match get_current_user token db now with
  | .error e => .error e
  | .ok current_user =>
    if !current_user.activated then .error .inactive else .ok current_user

/-- Modelled from the spec: the user store's create/commit operation
(`db.add(user); db.commit()` against SQLite), which is not part of
`src/` itself.  Per the spec's store contract and the `unique=True`
constraints declared on `UserModel`'s `username`, `email`,
`secret_key` and `client_id` columns, it fails with `ConflictError`
on a duplicate unique field and otherwise appends the row. -/
def db_commit_insert (db : List UserModel) (u : UserModel) :
    Except ApiError (List UserModel) :=
  if db.any (fun v =>
      v.username == u.username || v.email == u.email ||
      v.secret_key == u.secret_key || v.client_id == u.client_id)
  then .error .conflict
  else .ok (db ++ [u])

/-- `register_user(request, db)` of `main.py`: hashes the password,
generates `secret_key` and `client_id`, inserts the row (with
`activated` defaulting to `False`) and returns the registration
response.  `hash` is the injected `pwd_context.hash`; `sk_bytes` and
`cid_bytes` are the random bytes drawn by the two generators. -/
def register_user (hash : String → String) (db : List UserModel)
    (username email password : String) (sk_bytes cid_bytes : List Nat) :
    Except ApiError (List UserModel × RegistrationResponseModel) :=
  let hashed_password := hash password
  let secret_key := generate_random_hex sk_bytes
  let client_id := generate_client_id cid_bytes
  let user : UserModel :=
    { username := username, email := email,
      hashed_password := hashed_password, activated := false,
      secret_key := secret_key, client_id := client_id }
  match db_commit_insert db user with
  | .error e => .error e
  | .ok db2 =>
    .ok (db2,
      { username := user.username, email := user.email,
        secret_key := user.secret_key, client_id := user.client_id })

/-- `login_for_access_token(form_data, db)` of `main.py`: 401 on
failed authentication (same response whether the username is unknown
or the password wrong); on success issues a token for the user signed
with the user's `secret_key` and a 30-minute expiry. -/
def login_for_access_token (verify : String → String → Bool)
    (db : List UserModel) (username password : String) (now : Int) :
    Except ApiError Token :=
  match authenticate_user verify db username password with
  | none => .error .unauthorized
  | some user =>
    .ok (create_access_token { sub := some user.username, exp := none }
          user.secret_key now (some (ACCESS_TOKEN_EXPIRE_MINUTES * 60)))

/-- `retrieve_access_token(current_user, db)` of `main.py`: requires
an activated, token-verified caller, re-fetches the user row and
issues a fresh token with no explicit expiry (so the 15-minute
default applies).  The `none` branch of the re-fetch models the
`AttributeError` crash the source would hit there; it is unreachable
when the verified user came from `db`. -/
def retrieve_access_token (token : Token) (db : List UserModel) (now : Int) :
    Except ApiError Token :=
  match get_current_active_user token db now with
  | .error e => .error e
  | .ok current_user =>
    match get_user db current_user.username with
    | none => .error .internalError
    | some user =>
      .ok (create_access_token { sub := some current_user.username, exp := none }
            user.secret_key now none)

/-- Setting `user.activated = True` followed by `db.commit()`: updates
the row `get_user` resolved, i.e. the first row with that username. -/
def activate_first : List UserModel → String → List UserModel
  | [], _ => []
  | u :: rest, username =>
    if u.username == username then { u with activated := true } :: rest
    else u :: activate_first rest username

/-- `account_activation(token, db)` of `main.py`: repeats, inline, the
same two-phase verification as `get_current_user` (401 on any
failure, leaving the store untouched); on success sets
`activated = True` on the resolved user and commits.  Returns the
resulting store alongside the response. -/
def account_activation (token : Token) (db : List UserModel) (now : Int) :
    List UserModel × Except ApiError GeneralResponseModel :=
  match jwt_decode_unverified token with
  | none => (db, .error .unauthorized)
  | some unverified_payload =>
    match unverified_payload.sub with
    | none => (db, .error .unauthorized)
    | some username =>
      match get_user db username with
      | none => (db, .error .unauthorized)
      | some user =>
        match jwt_decode_verified token user.secret_key now with
        | none => (db, .error .unauthorized)
        | some _ =>
          (activate_first db user.username,
           .ok { isSuccessful := true, message := "Account activated successfully" })

/-- Lowercase-hexadecimal character class. -/
def isLowerHexChar (c : Char) : Bool :=
  c = '0' ∨ c = '1' ∨ c = '2' ∨ c = '3' ∨ c = '4' ∨ c = '5' ∨ c = '6' ∨
  c = '7' ∨ c = '8' ∨ c = '9' ∨ c = 'a' ∨ c = 'b' ∨ c = 'c' ∨ c = 'd' ∨
  c = 'e' ∨ c = 'f'

/-- Uppercase-hexadecimal character class. -/
def isUpperHexChar (c : Char) : Bool :=
  c = '0' ∨ c = '1' ∨ c = '2' ∨ c = '3' ∨ c = '4' ∨ c = '5' ∨ c = '6' ∨
  c = '7' ∨ c = '8' ∨ c = '9' ∨ c = 'A' ∨ c = 'B' ∨ c = 'C' ∨ c = 'D' ∨
  c = 'E' ∨ c = 'F'

/-! ## Concrete fixtures (used only to instantiate theorems) -/

/-- A concrete unactivated user row. -/
def uAlice : UserModel :=
  { username := "alice", email := "alice@x.com", hashed_password := "HA",
    activated := false, secret_key := "KA", client_id := "CA" }

/-- A concrete activated user row with a different secret key. -/
def uBob : UserModel :=
  { username := "bob", email := "bob@x.com", hashed_password := "HB",
    activated := true, secret_key := "KB", client_id := "CB" }

/-! ## Helper lemmas -/

/-- A successful `get_user` lookup returns a row carrying the queried
username. -/
theorem get_user_username_eq (db : List UserModel) (s : String) (u : UserModel)
    (h : get_user db s = some u) : u.username = s := by
  have hp := List.find?_some h
  simpa using hp

/-- A token whose `exp` claim has passed fails verified decoding with
every key. -/
theorem jwt_decode_verified_expired (c : Claims) (k key : String)
    (now e : Int) (hexp : c.exp = some e) (hpast : e ≤ now) :
    jwt_decode_verified (Token.signed c k) key now = none := by
  simp [jwt_decode_verified, hexp, hpast]

/-- `account_activation` is `get_current_user` followed by the
activation commit on success. -/
theorem account_activation_spec (token : Token) (db : List UserModel) (now : Int) :
    account_activation token db now =
      match get_current_user token db now with
      | .ok u => (activate_first db u.username,
          .ok { isSuccessful := true, message := "Account activated successfully" })
      | .error _ => (db, .error .unauthorized) := by
  cases h1 : jwt_decode_unverified token with
  | none => simp [account_activation, get_current_user, h1]
  | some c =>
    cases h2 : c.sub with
    | none => simp [account_activation, get_current_user, h1, h2]
    | some s =>
      cases h3 : get_user db s with
      | none => simp [account_activation, get_current_user, h1, h2, h3]
      | some u =>
        cases h4 : jwt_decode_verified token u.secret_key now with
        | none => simp [account_activation, get_current_user, h1, h2, h3, h4]
        | some p => simp [account_activation, get_current_user, h1, h2, h3, h4]

/-- Activating the first row with a username updates exactly the row
`get_user` resolves for that username. -/
theorem get_user_activate_first (db : List UserModel) (s : String) (u : UserModel)
    (h : get_user db s = some u) :
    get_user (activate_first db s) s = some { u with activated := true } := by
  induction db with
  | nil => simp [get_user] at h
  | cons v rest ih =>
    by_cases hv : v.username == s
    · simp [get_user, List.find?_cons, hv] at h
      subst h
      simp [activate_first, hv, get_user, List.find?_cons]
    · simp [get_user, List.find?_cons, hv] at h ih
      simpa [activate_first, hv, get_user, List.find?_cons] using ih h

/-! ## Claim theorems -/

/-- Claim C1: `get_current_user` follows the two-phase scheme: an
unparseable token, an absent `sub`, an unknown subject, or a failed
verified re-parse (signature mismatch or expiry, checked against the
resolved user's stored `secret_key`) each yield Unauthorized, and the
resolved user is returned exactly when the verified re-parse
succeeds. -/
theorem get_current_user_two_phase (token : Token) (db : List UserModel) (now : Int) :
    (jwt_decode_unverified token = none →
      get_current_user token db now = .error .unauthorized) ∧
    (∀ c, jwt_decode_unverified token = some c → c.sub = none →
      get_current_user token db now = .error .unauthorized) ∧
    (∀ c s, jwt_decode_unverified token = some c → c.sub = some s →
      get_user db s = none →
      get_current_user token db now = .error .unauthorized) ∧
    (∀ c s u, jwt_decode_unverified token = some c → c.sub = some s →
      get_user db s = some u →
      jwt_decode_verified token u.secret_key now = none →
      get_current_user token db now = .error .unauthorized) ∧
    (∀ c s u p, jwt_decode_unverified token = some c → c.sub = some s →
      get_user db s = some u →
      jwt_decode_verified token u.secret_key now = some p →
      get_current_user token db now = .ok u) := by
  refine ⟨?_, ?_, ?_, ?_, ?_⟩ <;> intros <;> simp_all [get_current_user]

/-- Witness for C1 at a concrete unparseable token. -/
theorem get_current_user_two_phase_witness :
    get_current_user Token.malformed [] 0 = .error .unauthorized :=
  (get_current_user_two_phase Token.malformed [] 0).1 rfl

/-- Claim C2: a token issued for a stored user with that user's secret
key and any positive ttl is accepted by `get_current_user` and
resolves to that user. -/
theorem issue_verify_round_trip (db : List UserModel) (u : UserModel)
    (k : String) (ttl now : Int)
    (hu : get_user db u.username = some u) (hk : u.secret_key = k)
    (httl : 0 < ttl) :
    get_current_user
      (create_access_token { sub := some u.username, exp := none } k now (some ttl))
      db now = .ok u := by
  have hne : ttl ≠ 0 := by omega
  have hexp : ¬ (now + ttl ≤ now) := by omega
  simp [get_current_user, create_access_token, jwt_decode_unverified,
    jwt_decode_verified, hu, hk, hne, hexp]

/-- Witness for C2: a concrete user, store and ttl. -/
theorem issue_verify_round_trip_witness :
    get_current_user
      (create_access_token { sub := some uAlice.username, exp := none } "KA" 0 (some 60))
      [uAlice] 0 = .ok uAlice :=
  issue_verify_round_trip [uAlice] uAlice "KA" 60 0 (by decide) (by decide) (by decide)

/-- Claim C7: any well-formed token whose `exp` claim lies at or before
the verification time is rejected with Unauthorized, even when the
subject exists and the token was signed with that subject's stored
secret key. -/
theorem expired_token_rejected (c : Claims) (k : String) (db : List UserModel)
    (now e : Int) (hexp : c.exp = some e) (hpast : e ≤ now) :
    get_current_user (Token.signed c k) db now = .error .unauthorized := by
  have hv := fun key => jwt_decode_verified_expired c k key now e hexp hpast
  simp_all [get_current_user, jwt_decode_unverified]
  cases hs : c.sub with
  | none => simp [hs]
  | some s =>
    cases hg : get_user db s with
    | none => simp [hs, hg]
    | some u => simp [hs, hg, hv]

/-- Witness for C7: an expired token signed with the stored key of an
existing subject. -/
theorem expired_token_rejected_witness :
    get_current_user (Token.signed { sub := some "alice", exp := some 0 } "KA")
      [uAlice] 5 = .error .unauthorized :=
  expired_token_rejected { sub := some "alice", exp := some 0 } "KA" [uAlice] 5 0
    rfl (by decide)

/-- Claim C3: for distinct users of a store whose secret keys are
pairwise distinct (the store's uniqueness invariant), a token carrying
`sub = u.username` but signed with `v.secret_key` is rejected with
Unauthorized: only the key stored for the claimed subject verifies. -/
theorem cross_user_forgery_rejected (db : List UserModel) (u v : UserModel)
    (ttl issue_now now : Int)
    (hu : u ∈ db) (hv : v ∈ db) (huv : u ≠ v)
    (huniq : ∀ a ∈ db, ∀ b ∈ db, a ≠ b → a.secret_key ≠ b.secret_key)
    (hfind : get_user db u.username = some u) :
    get_current_user
      (create_access_token { sub := some u.username, exp := none }
        v.secret_key issue_now (some ttl)) db now = .error .unauthorized := by
  have hk : ¬ (v.secret_key = u.secret_key) := huniq v hv u hu (Ne.symm huv)
  simp [get_current_user, create_access_token, jwt_decode_unverified,
    jwt_decode_verified, hfind, hk]

/-- Witness for C3: bob's key cannot mint a token for alice. -/
theorem cross_user_forgery_rejected_witness :
    get_current_user
      (create_access_token { sub := some uAlice.username, exp := none }
        uBob.secret_key 0 (some 60)) [uAlice, uBob] 7 = .error .unauthorized :=
  cross_user_forgery_rejected [uAlice, uBob] uAlice uBob 60 0 7
    (by decide) (by decide) (by decide) (by decide) (by decide)

/-- Claim C4: registration fails with the store's conflict error
whenever the requested username or email already exists; with no
conflicting unique field it succeeds, appending a row with the hashed
password, `activated = false` and the freshly generated keys, and
returns them. -/
theorem register_user_conflict_and_success (hash : String → String)
    (db : List UserModel) (username email password : String)
    (sk_bytes cid_bytes : List Nat) :
    ((∃ v ∈ db, v.username = username ∨ v.email = email) →
      register_user hash db username email password sk_bytes cid_bytes =
        .error .conflict) ∧
    ((∀ v ∈ db, v.username ≠ username ∧ v.email ≠ email ∧
        v.secret_key ≠ generate_random_hex sk_bytes ∧
        v.client_id ≠ generate_client_id cid_bytes) →
      register_user hash db username email password sk_bytes cid_bytes =
        .ok (db ++ [{ username := username, email := email,
                      hashed_password := hash password, activated := false,
                      secret_key := generate_random_hex sk_bytes,
                      client_id := generate_client_id cid_bytes }],
             { username := username, email := email,
               secret_key := generate_random_hex sk_bytes,
               client_id := generate_client_id cid_bytes })) := by
  constructor
  · rintro ⟨v, hvdb, hcase⟩
    have hcond : ∃ x ∈ db,
        ((x.username = username ∨ x.email = email) ∨
          x.secret_key = generate_random_hex sk_bytes) ∨
        x.client_id = generate_client_id cid_bytes := ⟨v, hvdb, by tauto⟩
    simp [register_user, db_commit_insert, List.any_eq_true, hcond]
  · intro h
    have hcond : ¬ ∃ x ∈ db,
        ((x.username = username ∨ x.email = email) ∨
          x.secret_key = generate_random_hex sk_bytes) ∨
        x.client_id = generate_client_id cid_bytes := by
      rintro ⟨x, hx, hc⟩
      obtain ⟨h1, h2, h3, h4⟩ := h x hx
      tauto
    simp [register_user, db_commit_insert, List.any_eq_true, hcond]

/-- Witness for C4: a fresh registration into an empty store succeeds
with the generated credentials. -/
theorem register_user_conflict_and_success_witness :
    register_user (fun s => s) [] "alice" "alice@x.com" "pw123"
        (List.replicate 32 0) (List.replicate 7 0) =
      .ok ([] ++ [{ username := "alice", email := "alice@x.com",
                    hashed_password := "pw123", activated := false,
                    secret_key := generate_random_hex (List.replicate 32 0),
                    client_id := generate_client_id (List.replicate 7 0) }],
           { username := "alice", email := "alice@x.com",
             secret_key := generate_random_hex (List.replicate 32 0),
             client_id := generate_client_id (List.replicate 7 0) }) :=
  (register_user_conflict_and_success (fun s => s) [] "alice" "alice@x.com"
    "pw123" (List.replicate 32 0) (List.replicate 7 0)).2 (by simp)

/-- Claim C5: the externally observable outcome of authentication and
login is identical for an unknown username and for a known username
with a wrong password: both return the same generic unauthorized
result (username-enumeration resistance). -/
theorem login_enumeration_resistance (verify : String → String → Bool)
    (db : List UserModel) (u1 p1 u2 p2 : String) (now : Int)
    (h1 : get_user db u1 = none)
    (h2 : ∃ v, get_user db u2 = some v ∧ verify p2 v.hashed_password = false) :
    authenticate_user verify db u1 p1 = authenticate_user verify db u2 p2 ∧
    login_for_access_token verify db u1 p1 now =
      login_for_access_token verify db u2 p2 now ∧
    login_for_access_token verify db u1 p1 now = .error .unauthorized := by
  obtain ⟨v, hv, hpw⟩ := h2
  simp [authenticate_user, login_for_access_token, h1, hv, hpw]

/-- Witness for C5: an unknown user and a known user with a rejected
password yield identical outcomes. -/
theorem login_enumeration_resistance_witness :
    authenticate_user (fun _ _ => false) [uAlice] "nobody" "pw" =
      authenticate_user (fun _ _ => false) [uAlice] "alice" "pw" ∧
    login_for_access_token (fun _ _ => false) [uAlice] "nobody" "pw" 0 =
      login_for_access_token (fun _ _ => false) [uAlice] "alice" "pw" 0 ∧
    login_for_access_token (fun _ _ => false) [uAlice] "nobody" "pw" 0 =
      .error .unauthorized :=
  login_enumeration_resistance (fun _ _ => false) [uAlice] "nobody" "pw"
    "alice" "pw" 0 (by decide) ⟨uAlice, by decide, rfl⟩

/-- Counterexample to claim C6 as stated: with an explicit zero ttl
the program does not set `exp = now + ttl`; the source's
`if expires_delta:` truthiness test treats `timedelta(0)` as absent,
so the token falls back to the 15-minute default. -/
theorem token_expiry_zero_delta_counterexample :
    tokenExp (create_access_token { sub := some "alice", exp := none } "KA" 0 (some 0)) =
      some (0 + 15 * 60) ∧
    tokenExp (create_access_token { sub := some "alice", exp := none } "KA" 0 (some 0)) ≠
      some (0 + 0) := ⟨rfl, by decide⟩

/-- Claim C6 (amended): issuance sets `exp = now + ttl` when an
explicit nonzero ttl is supplied; when no ttl is supplied — or the
explicit ttl is zero, which the source's truthiness test treats like
an absent one — `exp = now + 15 minutes`; the login flow issues
30-minute tokens, while the retrieve-access-token path supplies no
ttl and therefore issues 15-minute tokens. -/
theorem token_expiry_defaults :
    (∀ (data : Claims) (key : String) (now d : Int), d ≠ 0 →
      tokenExp (create_access_token data key now (some d)) = some (now + d)) ∧
    (∀ (data : Claims) (key : String) (now : Int),
      tokenExp (create_access_token data key now none) = some (now + 15 * 60)) ∧
    (∀ (data : Claims) (key : String) (now : Int),
      tokenExp (create_access_token data key now (some 0)) = some (now + 15 * 60)) ∧
    (∀ (verify : String → String → Bool) (db : List UserModel)
        (username password : String) (now : Int) (tok : Token),
      login_for_access_token verify db username password now = .ok tok →
      tokenExp tok = some (now + 30 * 60)) ∧
    (∀ (token : Token) (db : List UserModel) (now : Int) (tok : Token),
      retrieve_access_token token db now = .ok tok →
      tokenExp tok = some (now + 15 * 60)) := by
  refine ⟨?_, fun _ _ _ => rfl, fun _ _ _ => rfl, ?_, ?_⟩
  · intro data key now d hd
    simp [tokenExp, create_access_token, hd]
  · intro verify db username password now tok h
    unfold login_for_access_token at h
    cases hA : authenticate_user verify db username password with
    | none => rw [hA] at h; cases h
    | some user =>
      rw [hA] at h
      cases h
      simp [tokenExp, create_access_token, ACCESS_TOKEN_EXPIRE_MINUTES]
  · intro token db now tok h
    unfold retrieve_access_token at h
    split at h
    · cases h
    · split at h
      · cases h
      · cases h
        simp [tokenExp, create_access_token]

/-- Witness for C6: concrete expiries for the five paths (explicit
nonzero delta, absent delta, zero delta, login at 30 minutes, token
retrieval at 15). -/
theorem token_expiry_defaults_witness :
    tokenExp (create_access_token { sub := some "alice", exp := none } "KA" 0 (some 60)) =
      some (0 + 60) ∧
    tokenExp (create_access_token { sub := some "alice", exp := none } "KA" 0 none) =
      some (0 + 15 * 60) ∧
    tokenExp (create_access_token { sub := some "alice", exp := none } "KA" 0 (some 0)) =
      some (0 + 15 * 60) ∧
    tokenExp (Token.signed { sub := some "alice", exp := some 1800 } "KA") =
      some (0 + 30 * 60) ∧
    tokenExp (Token.signed { sub := some "bob", exp := some 900 } "KB") =
      some (0 + 15 * 60) :=
  ⟨token_expiry_defaults.1 { sub := some "alice", exp := none } "KA" 0 60 (by decide),
   token_expiry_defaults.2.1 { sub := some "alice", exp := none } "KA" 0,
   token_expiry_defaults.2.2.1 { sub := some "alice", exp := none } "KA" 0,
   token_expiry_defaults.2.2.2.1 (fun _ _ => true) [uAlice] "alice" "pw" 0
     (Token.signed { sub := some "alice", exp := some 1800 } "KA") rfl,
   token_expiry_defaults.2.2.2.2
     (Token.signed { sub := some "bob", exp := some 100 } "KB") [uBob] 0
     (Token.signed { sub := some "bob", exp := some 900 } "KB") rfl⟩

/-- A user returned by `get_current_user` is the row `get_user`
resolves for its own username. -/
theorem get_current_user_ok_get_user (token : Token) (db : List UserModel)
    (now : Int) (u : UserModel) (h : get_current_user token db now = .ok u) :
    get_user db u.username = some u := by
  cases h1 : jwt_decode_unverified token with
  | none => simp [get_current_user, h1] at h
  | some c =>
    cases h2 : c.sub with
    | none => simp [get_current_user, h1, h2] at h
    | some s =>
      cases h3 : get_user db s with
      | none => simp [get_current_user, h1, h2, h3] at h
      | some w =>
        cases h4 : jwt_decode_verified token w.secret_key now with
        | none => simp [get_current_user, h1, h2, h3, h4] at h
        | some p =>
          simp [get_current_user, h1, h2, h3, h4] at h
          subst h
          rw [get_user_username_eq db s w h3]
          exact h3

/-- Claim C8: `account_activation` performs exactly the two-phase
verification of `get_current_user`: it succeeds on a token if and
only if `get_current_user` accepts it, it fails with Unauthorized
leaving the store unchanged whenever `get_current_user` fails, and on
success the resolved user's row has `activated` set to true. -/
theorem account_activation_matches_verify (token : Token)
    (db : List UserModel) (now : Int) :
    (∀ u, get_current_user token db now = .ok u →
      (account_activation token db now).2 =
        .ok { isSuccessful := true, message := "Account activated successfully" } ∧
      get_user (account_activation token db now).1 u.username =
        some { u with activated := true }) ∧
    (∀ e, get_current_user token db now = .error e →
      account_activation token db now = (db, .error .unauthorized)) ∧
    ((∃ u, get_current_user token db now = .ok u) ↔
      ∃ r, (account_activation token db now).2 = .ok r) := by
  refine ⟨?_, ?_, ?_⟩
  · intro u hu
    have hg : get_user db u.username = some u :=
      get_current_user_ok_get_user token db now u hu
    rw [account_activation_spec, hu]
    exact ⟨rfl, get_user_activate_first db u.username u hg⟩
  · intro e he
    rw [account_activation_spec, he]
  · rw [account_activation_spec]
    cases hg : get_current_user token db now with
    | ok u => simp [hg]
    | error e => simp [hg]

/-- Witness for C8: a valid activation token for bob is accepted and
flips his `activated` flag. -/
theorem account_activation_matches_verify_witness :
    (account_activation (Token.signed { sub := some "bob", exp := some 100 } "KB")
        [uAlice, uBob] 0).2 =
      .ok { isSuccessful := true, message := "Account activated successfully" } ∧
    get_user (account_activation (Token.signed { sub := some "bob", exp := some 100 } "KB")
        [uAlice, uBob] 0).1 uBob.username = some { uBob with activated := true } :=
  (account_activation_matches_verify
    (Token.signed { sub := some "bob", exp := some 100 } "KB")
    [uAlice, uBob] 0).1 uBob rfl

/-- Claim C10: whenever `account_activation` fails, the user store is
left completely unchanged (the activation commit happens only after
the verified parse succeeds). -/
theorem account_activation_failure_preserves_store (token : Token)
    (db : List UserModel) (now : Int) (e : ApiError)
    (h : (account_activation token db now).2 = .error e) :
    (account_activation token db now).1 = db := by
  rw [account_activation_spec] at h ⊢
  cases hg : get_current_user token db now with
  | ok u => simp [hg] at h
  | error e2 => simp [hg]

/-- Witness for C10: a rejected activation leaves the store as it
was. -/
theorem account_activation_failure_preserves_store_witness :
    (account_activation Token.malformed [uAlice] 0).1 = [uAlice] :=
  account_activation_failure_preserves_store Token.malformed [uAlice] 0
    .unauthorized rfl

/-- Every hex digit rendered for a value below 16 is a lowercase
hexadecimal character. -/
theorem isLowerHexChar_hexDigitChar (n : Nat) (h : n < 16) :
    isLowerHexChar (hexDigitChar n) = true := by
  have hall : ∀ m < 16, isLowerHexChar (hexDigitChar m) = true := by decide
  exact hall n h

/-- Uppercasing a rendered hex digit yields an uppercase hexadecimal
character. -/
theorem isUpperHexChar_toUpper_hexDigitChar (n : Nat) (h : n < 16) :
    isUpperHexChar ((hexDigitChar n).toUpper) = true := by
  have hall : ∀ m < 16, isUpperHexChar ((hexDigitChar m).toUpper) = true := by decide
  exact hall n h

/-- `token_hex` renders two characters per input byte. -/
theorem token_hex_length (bytes : List Nat) :
    (token_hex bytes).length = 2 * bytes.length := by
  induction bytes with
  | nil => rfl
  | cons b rest ih =>
    simp [token_hex] at ih ⊢
    omega

/-- Every character of `token_hex` comes from one of the two digits of
some input byte. -/
theorem token_hex_mem (bytes : List Nat) (c : Char) (h : c ∈ token_hex bytes) :
    ∃ b ∈ bytes, c = hexDigitChar (b / 16) ∨ c = hexDigitChar (b % 16) := by
  simp [token_hex, List.mem_flatMap] at h
  obtain ⟨b, hb, hc⟩ := h
  exact ⟨b, hb, by tauto⟩

/-- Claim C9: registration generates a secret key of exactly 64
lowercase hexadecimal characters (32 random bytes rendered as hex)
and a client id of exactly 14 uppercase hexadecimal characters
(7 random bytes rendered as uppercase hex). -/
theorem generated_key_formats (sk_bytes cid_bytes : List Nat)
    (hsk_len : sk_bytes.length = 32) (hsk_byte : ∀ b ∈ sk_bytes, b < 256)
    (hcid_len : cid_bytes.length = 7) (hcid_byte : ∀ b ∈ cid_bytes, b < 256) :
    (generate_random_hex sk_bytes).length = 64 ∧
    (∀ c ∈ (generate_random_hex sk_bytes).toList, isLowerHexChar c) ∧
    (generate_client_id cid_bytes).length = 14 ∧
    (∀ c ∈ (generate_client_id cid_bytes).toList, isUpperHexChar c) := by
  refine ⟨?_, ?_, ?_, ?_⟩
  · show (token_hex sk_bytes).length = 64
    rw [token_hex_length, hsk_len]
  · intro c hc
    obtain ⟨b, hb, hcase⟩ := token_hex_mem sk_bytes c hc
    have hblt := hsk_byte b hb
    have hdiv : b / 16 < 16 := by omega
    have hmod : b % 16 < 16 := by omega
    rcases hcase with h | h <;> subst h
    · exact isLowerHexChar_hexDigitChar _ hdiv
    · exact isLowerHexChar_hexDigitChar _ hmod
  · show ((token_hex cid_bytes).map Char.toUpper).length = 14
    rw [List.length_map, token_hex_length, hcid_len]
  · intro c hc
    have hc2 : c ∈ (token_hex cid_bytes).map Char.toUpper := hc
    obtain ⟨d, hd, rfl⟩ := List.mem_map.mp hc2
    obtain ⟨b, hb, hcase⟩ := token_hex_mem cid_bytes d hd
    have hblt := hcid_byte b hb
    have hdiv : b / 16 < 16 := by omega
    have hmod : b % 16 < 16 := by omega
    rcases hcase with h | h <;> subst h
    · exact isUpperHexChar_toUpper_hexDigitChar _ hdiv
    · exact isUpperHexChar_toUpper_hexDigitChar _ hmod

/-- Witness for C9 on concrete random bytes. -/
theorem generated_key_formats_witness :
    (generate_random_hex (List.replicate 32 171)).length = 64 ∧
    (∀ c ∈ (generate_random_hex (List.replicate 32 171)).toList, isLowerHexChar c) ∧
    (generate_client_id (List.replicate 7 171)).length = 14 ∧
    (∀ c ∈ (generate_client_id (List.replicate 7 171)).toList, isUpperHexChar c) :=
  generated_key_formats (List.replicate 32 171) (List.replicate 7 171)
    (by decide) (by decide) (by decide) (by decide)
